import Mathlib

/-!
# point_cloud_transport_tutorial: `my_subscriber.cpp`

A shallow embedding of the subscriber example.  The program consists of the
callback `yourCallbackHere` and of `main`; everything else (runtime, node,
transport, logging) belongs to the middleware and appears here as an
interface whose replies are supplied by a `Middleware` value.

Machine integers are natural numbers; `uint32_t` arithmetic is written with
an explicit `% 2 ^ 32`.
-/

namespace PointCloudSubscriber

/-! ## Message type -/

/-- Number of values of a `uint32_t`. -/
def UINT32_SIZE : Nat := 2 ^ 32

/-- Record `std_msgs/Header`: time stamp and frame name. -/
structure Header where
  stamp_sec : Int
  stamp_nanosec : Nat
  frame_id : String
  deriving DecidableEq, Repr

/-- Record `sensor_msgs/PointField`: description of one channel of a point. -/
structure PointField where
  name : String
  offset : Nat
  datatype : Nat
  count : Nat
  deriving DecidableEq, Repr

/-- Modelled from the spec: the point cloud message, "an externally defined
structure with width, height, and point-field data".  The fields are those of
the declaration of `sensor_msgs/msg/PointCloud2` in the message package, where
`height`, `width`, `point_step` and `row_step` are `uint32` and `data` is the
byte blob. -/
structure PointCloud2 where
  header : Header
  height : Nat
  width : Nat
  fields : List PointField
  is_bigendian : Bool
  point_step : Nat
  row_step : Nat
  data : List Nat
  is_dense : Bool
  deriving DecidableEq, Repr

/-- A message is well formed when its `uint32` fields hold 32-bit values. -/
def PointCloud2.WellFormed (msg : PointCloud2) : Prop :=
  msg.height < UINT32_SIZE ∧ msg.width < UINT32_SIZE ∧
    msg.point_step < UINT32_SIZE ∧ msg.row_step < UINT32_SIZE

instance (msg : PointCloud2) : Decidable msg.WellFormed := by
  unfold PointCloud2.WellFormed; infer_instance

/-- A message with the given grid size and nothing else of interest. -/
def PointCloud2.ofSize (w h : Nat) : PointCloud2 :=
  { header := { stamp_sec := 0, stamp_nanosec := 0, frame_id := "" },
    height := h, width := w, fields := [], is_bigendian := false,
    point_step := 0, row_step := 0, data := [], is_dense := false }

/-! ## Logging -/

/-- Severity levels of the logging facility. -/
inductive Severity where
  | debug | info | warn | error | fatal
  deriving DecidableEq, Repr

/-- A named logger, as returned by `rclcpp::get_logger`. -/
structure Logger where
  name : String
  deriving DecidableEq, Repr

/-- One entry of the log sink. -/
structure LogRecord where
  logger : String
  severity : Severity
  text : String
  deriving DecidableEq, Repr

/-! ## Handles and middleware calls -/

/-- Address of a callback function of this program. -/
inductive FnPtr where
  | yourCallbackHere
  deriving DecidableEq, Repr

/-- Handle of an `rclcpp::Node`. -/
structure Node where
  name : String
  deriving DecidableEq, Repr

/-- Handle of a `point_cloud_transport::PointCloudTransport`. -/
structure PointCloudTransport where
  node : Node
  deriving DecidableEq, Repr

/-- Handle of a `point_cloud_transport::Subscriber`. -/
structure Subscriber where
  node : Node
  topic : String
  queue_size : Nat
  callback : FnPtr
  deriving DecidableEq, Repr

/-- The calls `main` makes into the middleware, with their arguments. -/
inductive Call where
  | init (argc : Int) (argv : List String)
  | makeNode (name : String)
  | makeTransport (node : Node)
  | subscribe (pct : PointCloudTransport) (topic : String) (queue_size : Nat)
      (callback : FnPtr)
  | spin (node : Node)
  | shutdown
  deriving DecidableEq, Repr

/-- An exception thrown by the middleware. -/
structure Exn where
  what : String
  deriving DecidableEq, Repr

/-- Observable state of the process. -/
structure World where
  /-- the log sink, oldest entry first -/
  log : List LogRecord
  /-- middleware calls entered so far, oldest first -/
  calls : List Call
  /-- subscriptions currently registered -/
  subs : List Subscriber
  /-- messages the middleware currently holds and shares with callbacks -/
  owned : List PointCloud2
  deriving DecidableEq, Repr

/-- State of a process that has not done anything yet. -/
def World.initial : World :=
  { log := [], calls := [], subs := [], owned := [] }

/-! ## The callback -/

/-- Product `a * b` of two `uint32_t` values: both operands have the type
`unsigned int`, which the usual arithmetic conversions keep, so the product is
taken modulo `2 ^ 32`. -/
def mulU32 (a b : Nat) : Nat := (a * b) % 2 ^ 32

/-- Insertion `stream << n` of an unsigned integer into a fresh output stream,
which has the default format flags: the decimal digits of `n`. -/
def streamUnsigned (n : Nat) : String := Nat.repr n

/-- Call `rclcpp::get_logger(name)`. -/
def get_logger (name : String) : Logger := { name := name }

/-- Modelled from the spec: the logging macro of the external middleware,
`RCLCPP_INFO_STREAM(logger, stream_arg)`, which "emits an informational log
line": the text streamed into a fresh string stream goes to the log sink under
the name of the logger, at severity INFO. -/
def RCLCPP_INFO_STREAM (logger : Logger) (stream_arg : String) (w : World) :
    World :=
  { w with log := w.log ++ [{ logger := logger.name, severity := Severity.info,
                              text := stream_arg }] }

/-- The value streamed after the fixed text: `msg->width * msg->height`. -/
def loggedCount (msg : PointCloud2) : Nat := mulU32 msg.width msg.height

/-- Function `yourCallbackHere(const PointCloud2::ConstSharedPtr& msg)`. -/
def yourCallbackHere (msg : PointCloud2) (w : World) : World :=
  RCLCPP_INFO_STREAM (get_logger "point_cloud_subscriber")
    ("Message received, number of points is: " ++
      streamUnsigned (mulU32 msg.width msg.height)) w

/-! ## Control flow of `main` -/

/-- Ways a computation can end: it returns a value, it is left by an exception
nobody catches, or it never comes back. -/
inductive Outcome (α : Type) where
  | returned (value : α)
  | uncaught (e : Exn)
  | blocked
  deriving DecidableEq, Repr

/-- A statement of the program: it transforms the world and ends somehow. -/
def Prog (α : Type) : Type := World → Outcome α × World

/-- Statement that does nothing and yields `a`. -/
def Prog.pure {α : Type} (a : α) : Prog α := fun w => (Outcome.returned a, w)

/-- Sequencing of statements; an exception or a blocked call skips the rest. -/
def Prog.bind {α β : Type} (m : Prog α) (f : α → Prog β) : Prog β := fun w =>
  match m w with
  | (Outcome.returned a, w1) => f a w1
  | (Outcome.uncaught e, w1) => (Outcome.uncaught e, w1)
  | (Outcome.blocked, w1) => (Outcome.blocked, w1)

instance : Monad Prog where
  pure := Prog.pure
  bind := Prog.bind

/-- Reply of the middleware to a call that may throw. -/
inductive Reply where
  | ok
  | throws (e : Exn)
  deriving DecidableEq, Repr

/-- How the run loop ends after it has delivered its messages. -/
inductive SpinEnd where
  | returns
  | blocks
  | throws (e : Exn)
  deriving DecidableEq, Repr

/-- Behaviour of the external middleware during one run of the process: a
parameter of the program, any value of which is possible. -/
structure Middleware where
  /-- whether a call returns or throws -/
  reply : Call → Reply
  /-- messages the run loop delivers to the subscription, in order -/
  delivered : List PointCloud2
  /-- end of the run loop: a termination signal makes it return -/
  spinEnd : SpinEnd
  /-- value returned by `rclcpp::shutdown` -/
  shutdownResult : Bool

/-- A call into the middleware that either returns or throws. -/
def middlewareCall (mw : Middleware) (c : Call) : Prog Unit := fun w =>
  let w1 := { w with calls := w.calls ++ [c] }
  match mw.reply c with
  | Reply.ok => (Outcome.returned (), w1)
  | Reply.throws e => (Outcome.uncaught e, w1)

/-- Call `rclcpp::init(argc, argv)`. -/
def rclcpp_init (mw : Middleware) (argc : Int) (argv : List String) :
    Prog Unit :=
  middlewareCall mw (Call.init argc argv)

/-- Expression `std::make_shared<rclcpp::Node>(name)`. -/
def make_shared_Node (mw : Middleware) (name : String) : Prog Node := do
  middlewareCall mw (Call.makeNode name)
  pure { name := name }

/-- Constructor `point_cloud_transport::PointCloudTransport pct(node)`. -/
def makePointCloudTransport (mw : Middleware) (node : Node) :
    Prog PointCloudTransport := do
  middlewareCall mw (Call.makeTransport node)
  pure { node := node }

/-- Method `pct.subscribe(topic, queue_size, callback)`: on success the
subscription is registered with the node of the transport. -/
def PointCloudTransport.subscribe (mw : Middleware) (pct : PointCloudTransport)
    (topic : String) (queue_size : Nat) (callback : FnPtr) :
    Prog Subscriber := do
  middlewareCall mw (Call.subscribe pct topic queue_size callback)
  let sub : Subscriber :=
    { node := pct.node, topic := topic, queue_size := queue_size,
      callback := callback }
  fun w => (Outcome.returned sub, { w with subs := w.subs ++ [sub] })

/-- Call through a function pointer. -/
def invoke : FnPtr → PointCloud2 → World → World
  | FnPtr.yourCallbackHere => yourCallbackHere

/-- Delivery of one message by the run loop of `node`: the middleware holds the
message, hands it once to the callback of every subscription of the node and
releases it. -/
def deliver (node : Node) (msg : PointCloud2) (w : World) : World :=
  let w1 := { w with owned := w.owned ++ [msg] }
  let w2 := (w1.subs.filter (fun s => s.node = node)).foldl
    (fun acc s => invoke s.callback msg acc) w1
  { w2 with owned := w2.owned.dropLast }

/-- Modelled from the spec: the run loop of the external middleware,
`rclcpp::spin(node)`, which "blocks the calling thread, dispatching incoming
messages to the callback, until an external termination signal is received". -/
def rclcpp_spin (mw : Middleware) (node : Node) : Prog Unit := fun w =>
  let w1 := { w with calls := w.calls ++ [Call.spin node] }
  let w2 := mw.delivered.foldl (fun acc msg => deliver node msg acc) w1
  match mw.spinEnd with
  | SpinEnd.returns => (Outcome.returned (), w2)
  | SpinEnd.blocks => (Outcome.blocked, w2)
  | SpinEnd.throws e => (Outcome.uncaught e, w2)

/-- Modelled from the spec: `rclcpp::shutdown()` of the external middleware,
which "tears down the process-wide runtime context; not expected to fail"; it
returns a flag. -/
def rclcpp_shutdown (mw : Middleware) : Prog Bool := fun w =>
  (Outcome.returned mw.shutdownResult,
    { w with calls := w.calls ++ [Call.shutdown] })

/-- Function `main(int argc, char** argv)`. -/
def main (mw : Middleware) (argc : Int) (argv : List String) : Prog Int := do
  rclcpp_init mw argc argv
  let node ← make_shared_Node mw "point_cloud_subscriber"
  let pct ← makePointCloudTransport mw node
  let _sub ← pct.subscribe mw "pct/point_cloud" 100 FnPtr.yourCallbackHere
  rclcpp_spin mw node
  let _ ← rclcpp_shutdown mw
  return 0

/-- One run of the process from its initial state. -/
def run (mw : Middleware) (argc : Int) (argv : List String) :
    Outcome Int × World :=
  main mw argc argv World.initial

/-- A middleware in which every call returns and the run loop delivers `msgs`
and then ends as `e` says. -/
def Middleware.nominal (msgs : List PointCloud2) (e : SpinEnd) : Middleware :=
  { reply := fun _ => Reply.ok, delivered := msgs, spinEnd := e,
    shutdownResult := true }

/-! ## Reading a decimal numeral -/

/-- Value of a decimal digit character, if it is one. -/
def digitValue (c : Char) : Option Nat :=
  if c.isDigit then some (c.toNat - 48) else none

/-- Value of a string of decimal digits read from the left, starting from
`acc`; `none` when a character is not a digit. -/
def readDigits : List Char → Nat → Option Nat
  | [], acc => some acc
  | c :: cs, acc =>
    match digitValue c with
    | some d => readDigits cs (10 * acc + d)
    | none => none

/-- Value denoted by a decimal numeral: at least one digit, digits only, and
no superfluous leading zero. -/
def readDecimal (s : String) : Option Nat :=
  match s.data with
  | [] => none
  | [c] => digitValue c
  | c :: cs => if c = '0' then none else readDigits (c :: cs) 0

/-! ## Vocabulary of the specification -/

/-- The log record the specification prescribes for a message: logger
`point_cloud_subscriber`, severity INFO, the fixed text and the count. -/
def lineFor (msg : PointCloud2) : LogRecord :=
  { logger := "point_cloud_subscriber", severity := Severity.info,
    text := "Message received, number of points is: " ++
      streamUnsigned (loggedCount msg) }

/-- The node `main` creates. -/
def theNode : Node := { name := "point_cloud_subscriber" }

/-- The subscription `main` registers. -/
def theSubscription : Subscriber :=
  { node := theNode, topic := "pct/point_cloud", queue_size := 100,
    callback := FnPtr.yourCallbackHere }

/-- The calls that set the process up, in the order of the specification:
runtime init, node construction, transport construction, subscribe. -/
def setupCalls (argc : Int) (argv : List String) : List Call :=
  [Call.init argc argv, Call.makeNode "point_cloud_subscriber",
   Call.makeTransport theNode,
   Call.subscribe { node := theNode } "pct/point_cloud" 100
     FnPtr.yourCallbackHere]

/-- All middleware calls of a complete run in the order of the specification:
the set-up calls, then spin, then shutdown. -/
def lifecycleCalls (argc : Int) (argv : List String) : List Call :=
  setupCalls argc argv ++ [Call.spin theNode, Call.shutdown]

/-- Every set-up call returns normally. -/
def Middleware.SetupOk (mw : Middleware) (argc : Int) (argv : List String) :
    Prop :=
  ∀ c ∈ setupCalls argc argv, mw.reply c = Reply.ok

/-- No call of the run throws: the set-up calls return and the run loop does
not end by an exception. -/
def Middleware.NoFailure (mw : Middleware) (argc : Int) (argv : List String) :
    Prop :=
  mw.SetupOk argc argv ∧ ∀ e, mw.spinEnd ≠ SpinEnd.throws e

/-- The states of the specification's state machine. -/
inductive Phase where
  | Uninitialized | Initialized | Subscribed | Spinning | Shutdown
  deriving DecidableEq, Repr

/-- Transitions of the specification's state machine, labelled by the
middleware call that causes them; every other combination is refused. -/
def Phase.step : Phase → Call → Option Phase
  | Phase.Uninitialized, Call.init _ _ => some Phase.Initialized
  | Phase.Initialized, Call.makeNode _ => some Phase.Initialized
  | Phase.Initialized, Call.makeTransport _ => some Phase.Initialized
  | Phase.Initialized, Call.subscribe _ _ _ _ => some Phase.Subscribed
  | Phase.Subscribed, Call.spin _ => some Phase.Spinning
  | Phase.Spinning, Call.shutdown => some Phase.Shutdown
  | _, _ => none

/-- The states entered while the calls are made from state `p`, in order, a
state being listed when it is entered from a different one; `none` when some
call is not allowed in the state it is made in. -/
def Phase.entered : Phase → List Call → Option (List Phase)
  | _, [] => some []
  | p, c :: cs =>
    match Phase.step p c with
    | none => none
    | some q =>
      match Phase.entered q cs with
      | none => none
      | some rest => some (if q = p then rest else q :: rest)

/-- Whether a call is a subscribe call. -/
def Call.isSubscribe : Call → Bool
  | Call.subscribe _ _ _ _ => true
  | _ => false

/-- A middleware in which the call `c` throws `e`, every other call returns,
and the run loop would deliver `msgs` and return. -/
def Middleware.failingAt (c : Call) (e : Exn) (msgs : List PointCloud2) :
    Middleware :=
  { reply := fun c2 => if c2 = c then Reply.throws e else Reply.ok,
    delivered := msgs, spinEnd := SpinEnd.returns, shutdownResult := true }

/-- The digit character of `d` has the value `d`. -/
theorem digitValue_digitChar (d : Nat) (h : d < 10) :
    digitValue (Nat.digitChar d) = some d := by
  interval_cases d <;> decide

/-- Only the digit 0 is rendered as the character 0. -/
theorem digitChar_ne_zero (d : Nat) (h : d < 10) (h0 : d ≠ 0) :
    Nat.digitChar d ≠ '0' := by
  interval_cases d <;> first | decide | exact absurd rfl h0

/-- Reading a concatenation reads the first part, then the second. -/
theorem readDigits_append (xs ys : List Char) (acc : Nat) :
    readDigits (xs ++ ys) acc = (readDigits xs acc).bind (readDigits ys) := by
  induction xs generalizing acc with
  | nil => simp [readDigits]
  | cons c cs ih =>
    simp only [List.cons_append, readDigits]
    cases digitValue c with
    | none => simp
    | some d => simp [ih]

/-- The digits produced for `n` form a block `pre` put in front of the digits
already there; the block reads back as `n` and is a proper numeral. -/
theorem toDigitsCore_block (fuel : Nat) :
    ∀ (n : Nat) (ds : List Char), n < fuel →
      ∃ pre : List Char, Nat.toDigitsCore 10 fuel n ds = pre ++ ds ∧
        readDigits pre 0 = some n ∧ pre ≠ [] ∧
        (n ≠ 0 → pre.head? ≠ some '0') ∧ (n = 0 → pre = ['0']) := by
  induction fuel with
  | zero => intro n ds h; omega
  | succ f ih =>
    intro n ds h
    simp only [Nat.toDigitsCore]
    by_cases hn : n / 10 = 0
    · have hlt : n < 10 := by omega
      have hmod : n % 10 = n := Nat.mod_eq_of_lt hlt
      refine ⟨[Nat.digitChar n], ?_, ?_, ?_, ?_, ?_⟩
      · simp [hn, hmod]
      · simp [readDigits, digitValue_digitChar n hlt]
      · simp
      · intro h0
        simpa using digitChar_ne_zero n hlt h0
      · intro h0; subst h0; rfl
    · have hq : n / 10 < f := by omega
      obtain ⟨pre, hpre, hread, hne, hhead, _⟩ :=
        ih (n / 10) (Nat.digitChar (n % 10) :: ds) hq
      refine ⟨pre ++ [Nat.digitChar (n % 10)], ?_, ?_, ?_, ?_, ?_⟩
      · simp [hn, hpre]
      · rw [readDigits_append, hread]
        have hd : n % 10 < 10 := Nat.mod_lt _ (by decide)
        simp only [Option.some_bind, readDigits, digitValue_digitChar _ hd]
        congr 1
        omega
      · simp
      · intro _
        cases pre with
        | nil => exact absurd rfl hne
        | cons c cs => simpa using hhead hn
      · intro h0; omega

/-- Reading back the text streamed for `n` gives `n`: the text is the decimal
numeral of `n`. -/
theorem readDecimal_streamUnsigned (n : Nat) :
    readDecimal (streamUnsigned n) = some n := by
  obtain ⟨pre, hpre, hread, hne, hhead, hzero⟩ :=
    toDigitsCore_block (n + 1) n [] (Nat.lt_succ_self n)
  have hdata : (streamUnsigned n).data = pre := by
    simp [streamUnsigned, Nat.repr, Nat.toDigits, List.asString, hpre]
  unfold readDecimal
  rw [hdata]
  match pre, hread, hne, hhead, hzero with
  | [], _, hne, _, _ => exact absurd rfl hne
  | [c], hread, _, _, _ =>
    simp only [readDigits] at hread
    cases hc : digitValue c with
    | none => simp [hc] at hread
    | some d => simp [hc] at hread; simp [hc, hread]
  | c :: c2 :: cs, hread, _, hhead, hzero =>
    have hn0 : n ≠ 0 := by
      intro h0
      have := hzero h0
      simp at this
    have hc : c ≠ '0' := by simpa using hhead hn0
    simp [hc, hread]

/-! ## The callback: count and log line -/

/-- The callback appends the record of the message and does nothing else. -/
theorem yourCallbackHere_eq (msg : PointCloud2) (w : World) :
    yourCallbackHere msg w = { w with log := w.log ++ [lineFor msg] } := rfl

/-- The 32-bit product is the true product exactly when that fits 32 bits. -/
theorem mulU32_eq_iff (a b : Nat) : mulU32 a b = a * b ↔ a * b < 2 ^ 32 := by
  unfold mulU32
  constructor
  · intro h
    have := Nat.mod_lt (a * b) (show 0 < 2 ^ 32 by norm_num)
    omega
  · exact Nat.mod_eq_of_lt

/-- Claim C1, evaluated at a message the claim fails on: for the well-formed
message of width 65536 and height 65536 the callback logs the count 0 (the line
reads "number of points is: 0"), while the product of width and height is
4294967296. -/
theorem C1_count_differs_from_product_at_65536 :
    (PointCloud2.ofSize 65536 65536).WellFormed ∧
    loggedCount (PointCloud2.ofSize 65536 65536) = 0 ∧
    (PointCloud2.ofSize 65536 65536).width *
      (PointCloud2.ofSize 65536 65536).height = 4294967296 ∧
    (yourCallbackHere (PointCloud2.ofSize 65536 65536) World.initial).log =
      [{ logger := "point_cloud_subscriber", severity := Severity.info,
         text := "Message received, number of points is: 0" }] := by
  decide

/-- Claim C2: for every message and every state of the log, the callback
appends one record, under the logger name "point_cloud_subscriber" and with
severity INFO, whose text is exactly "Message received, number of points is: "
followed by the text streamed for the computed count; that text is the decimal
numeral of the count (it reads back as the count); and for every message of
width 640 and height 480 the text is
"Message received, number of points is: 307200". -/
theorem C2_log_line_format (msg : PointCloud2) (w : World) :
    (yourCallbackHere msg w).log =
      w.log ++ [{ logger := "point_cloud_subscriber", severity := Severity.info,
                  text := "Message received, number of points is: " ++
                    streamUnsigned (loggedCount msg) }] ∧
    readDecimal (streamUnsigned (loggedCount msg)) = some (loggedCount msg) ∧
    (yourCallbackHere { msg with width := 640, height := 480 } w).log =
      w.log ++ [{ logger := "point_cloud_subscriber", severity := Severity.info,
                  text := "Message received, number of points is: 307200" }] :=
  ⟨rfl, readDecimal_streamUnsigned _, by
    rw [yourCallbackHere_eq]
    have hcount : "Message received, number of points is: " ++
        streamUnsigned (mulU32 640 480) =
        "Message received, number of points is: 307200" := by decide
    have : lineFor { msg with width := 640, height := 480 } =
        { logger := "point_cloud_subscriber", severity := Severity.info,
          text := "Message received, number of points is: 307200" } := by
      exact congrArg (LogRecord.mk "point_cloud_subscriber" Severity.info) hcount
    rw [this]⟩

/-- Claim C3: when the width or the height of a message is 0, whatever the
other dimension is, the count the callback logs is 0 and the logged text ends
in the numeral 0. -/
theorem C3_zero_dimension_logs_zero (msg : PointCloud2) (w : World)
    (h : msg.width = 0 ∨ msg.height = 0) :
    loggedCount msg = 0 ∧
    (yourCallbackHere msg w).log =
      w.log ++ [{ logger := "point_cloud_subscriber", severity := Severity.info,
                  text := "Message received, number of points is: 0" }] := by
  have h0 : loggedCount msg = 0 := by
    unfold loggedCount mulU32
    rcases h with h | h <;> simp [h]
  refine ⟨h0, ?_⟩
  rw [yourCallbackHere_eq]
  unfold lineFor
  rw [h0]
  rfl

/-- An instance: width 0 and height 4294967295. -/
theorem C3_zero_dimension_logs_zero_witness :
    ((PointCloud2.ofSize 0 4294967295).width = 0 ∨
      (PointCloud2.ofSize 0 4294967295).height = 0) ∧
    loggedCount (PointCloud2.ofSize 0 4294967295) = 0 ∧
    (yourCallbackHere (PointCloud2.ofSize 0 4294967295) World.initial).log =
      World.initial.log ++
        [{ logger := "point_cloud_subscriber", severity := Severity.info,
           text := "Message received, number of points is: 0" }] :=
  ⟨Or.inl rfl,
   C3_zero_dimension_logs_zero (PointCloud2.ofSize 0 4294967295) World.initial
     (Or.inl rfl)⟩

/-- The text streamed for a number determines the number. -/
theorem streamUnsigned_injective (a b : Nat)
    (h : streamUnsigned a = streamUnsigned b) : a = b := by
  have ha := readDecimal_streamUnsigned a
  rw [h, readDecimal_streamUnsigned b] at ha
  exact (Option.some.inj ha).symm

/-- Two texts with the same beginning are equal only when their ends are. -/
theorem append_left_cancel (p a b : String) (h : p ++ a = p ++ b) : a = b := by
  have hdata := congrArg String.data h
  simp only [String.data_append] at hdata
  exact String.ext (List.append_cancel_left hdata)

/-- The record the callback appends carries the number `n` exactly when `n` is
the 32-bit product of width and height. -/
theorem yourCallbackHere_log_eq_iff (msg : PointCloud2) (w : World) (n : Nat) :
    (yourCallbackHere msg w).log =
      w.log ++ [{ logger := "point_cloud_subscriber", severity := Severity.info,
                  text := "Message received, number of points is: " ++
                    streamUnsigned n }] ↔
    n = (msg.width * msg.height) % 2 ^ 32 := by
  constructor
  · intro h
    rw [yourCallbackHere_eq] at h
    have hrec := List.append_cancel_left h
    simp only [lineFor, List.cons.injEq, and_true, LogRecord.mk.injEq,
      true_and] at hrec
    exact (streamUnsigned_injective _ _ (append_left_cancel _ _ _ hrec)).symm
  · intro h
    subst h
    rfl

/-- Claim C10: for every message and every state of the log, the record the
callback appends carries the decimal numeral of the product of width and
height modulo 2 ^ 32 (the numeral reads back as that number), and of no other
number; the number it carries is the product itself exactly when the product
is below 2 ^ 32; and for width 65536 and height 65536 the record reads
"Message received, number of points is: 0" although the product is 2 ^ 32. -/
theorem C10_count_is_product_mod_2_pow_32 (msg : PointCloud2) (w : World) :
    (yourCallbackHere msg w).log =
      w.log ++ [{ logger := "point_cloud_subscriber", severity := Severity.info,
                  text := "Message received, number of points is: " ++
                    streamUnsigned ((msg.width * msg.height) % 2 ^ 32) }] ∧
    readDecimal (streamUnsigned ((msg.width * msg.height) % 2 ^ 32)) =
      some ((msg.width * msg.height) % 2 ^ 32) ∧
    (∀ n : Nat,
      (yourCallbackHere msg w).log =
        w.log ++ [{ logger := "point_cloud_subscriber",
                    severity := Severity.info,
                    text := "Message received, number of points is: " ++
                      streamUnsigned n }] →
      n = (msg.width * msg.height) % 2 ^ 32) ∧
    ((yourCallbackHere msg w).log =
        w.log ++ [{ logger := "point_cloud_subscriber",
                    severity := Severity.info,
                    text := "Message received, number of points is: " ++
                      streamUnsigned (msg.width * msg.height) }] ↔
      msg.width * msg.height < 2 ^ 32) ∧
    (yourCallbackHere { msg with width := 65536, height := 65536 } w).log =
      w.log ++ [{ logger := "point_cloud_subscriber", severity := Severity.info,
                  text := "Message received, number of points is: 0" }] ∧
    65536 * 65536 = 2 ^ 32 ∧
    loggedCount msg = (msg.width * msg.height) % 2 ^ 32 ∧
    (loggedCount msg = msg.width * msg.height ↔
      msg.width * msg.height < 2 ^ 32) := by
  refine ⟨rfl, readDecimal_streamUnsigned _,
    fun n h => (yourCallbackHere_log_eq_iff msg w n).mp h, ?_, ?_, by norm_num,
    rfl, mulU32_eq_iff _ _⟩
  · rw [yourCallbackHere_log_eq_iff]
    constructor
    · intro h
      exact (mulU32_eq_iff _ _).mp h.symm
    · intro h
      exact ((mulU32_eq_iff _ _).mpr h).symm
  · have hzero : "Message received, number of points is: " ++
        streamUnsigned (mulU32 65536 65536) =
        "Message received, number of points is: 0" := by decide
    rw [yourCallbackHere_eq]
    have hline : lineFor { msg with width := 65536, height := 65536 } =
        { logger := "point_cloud_subscriber", severity := Severity.info,
          text := "Message received, number of points is: 0" } :=
      congrArg (LogRecord.mk "point_cloud_subscriber" Severity.info) hzero
    rw [hline]

/-- An instance: width 65536 and height 65536, where the record carries 0 and
the product is 4294967296. -/
theorem C10_count_is_product_mod_2_pow_32_witness :
    (yourCallbackHere (PointCloud2.ofSize 65536 65536) World.initial).log =
      World.initial.log ++
        [{ logger := "point_cloud_subscriber", severity := Severity.info,
           text := "Message received, number of points is: " ++
             streamUnsigned 0 }] ∧
    0 = ((PointCloud2.ofSize 65536 65536).width *
      (PointCloud2.ofSize 65536 65536).height) % 2 ^ 32 ∧
    ¬ ((PointCloud2.ofSize 65536 65536).width *
      (PointCloud2.ofSize 65536 65536).height < 2 ^ 32) :=
  have hlog : (yourCallbackHere (PointCloud2.ofSize 65536 65536)
      World.initial).log =
      World.initial.log ++
        [{ logger := "point_cloud_subscriber", severity := Severity.info,
           text := "Message received, number of points is: " ++
             streamUnsigned 0 }] := by decide
  ⟨hlog,
   (C10_count_is_product_mod_2_pow_32 (PointCloud2.ofSize 65536 65536)
     World.initial).2.2.1 0 hlog,
   by decide⟩

/-- Claim C9: one invocation of the callback changes nothing of the process
state but the log, to which it appends exactly one record: the recorded
middleware calls, the registered subscriptions and the messages held by the
middleware (the message handed in among them) stay as they were; and the
result depends only on width and height, so two messages that agree on both
give the same record and the same state, whatever their other fields hold. -/
theorem C9_callback_frame (msg other : PointCloud2) (w : World)
    (hw : other.width = msg.width) (hh : other.height = msg.height) :
    (yourCallbackHere msg w).calls = w.calls ∧
    (yourCallbackHere msg w).subs = w.subs ∧
    (yourCallbackHere msg w).owned = w.owned ∧
    (yourCallbackHere msg { w with owned := w.owned ++ [msg] }).owned =
      w.owned ++ [msg] ∧
    (yourCallbackHere msg w).log = w.log ++ [lineFor msg] ∧
    lineFor other = lineFor msg ∧
    yourCallbackHere other w = yourCallbackHere msg w := by
  have hline : lineFor other = lineFor msg := by
    unfold lineFor loggedCount
    rw [hw, hh]
  refine ⟨rfl, rfl, rfl, rfl, rfl, hline, ?_⟩
  rw [yourCallbackHere_eq, yourCallbackHere_eq, hline]

/-! ## The run loop -/

/-- Delivery of one message to the subscription of `main`. -/
theorem deliver_theSubscription (msg : PointCloud2) (w : World)
    (h : w.subs = [theSubscription]) :
    deliver theNode msg w = { w with log := w.log ++ [lineFor msg] } := by
  unfold deliver
  simp [h, theSubscription, invoke, yourCallbackHere_eq]

/-- Delivery of a sequence of messages to the subscription of `main`. -/
theorem foldl_deliver_theSubscription (msgs : List PointCloud2) :
    ∀ w : World, w.subs = [theSubscription] →
      msgs.foldl (fun acc msg => deliver theNode msg acc) w =
        { w with log := w.log ++ msgs.map lineFor } := by
  induction msgs with
  | nil => intro w _; simp
  | cons m ms ih =>
    intro w h
    rw [List.foldl_cons, deliver_theSubscription m w h]
    have hnext := ih { w with log := w.log ++ [lineFor m] } h
    rw [hnext]
    simp

/-! ## Runs of `main` -/

/-- The run of `main` when every set-up call returns. -/
theorem run_of_setupOk (mw : Middleware) (argc : Int) (argv : List String)
    (h : mw.SetupOk argc argv) :
    run mw argc argv =
      match mw.spinEnd with
      | SpinEnd.returns =>
        (Outcome.returned 0,
          { log := mw.delivered.map lineFor, calls := lifecycleCalls argc argv,
            subs := [theSubscription], owned := [] })
      | SpinEnd.blocks =>
        (Outcome.blocked,
          { log := mw.delivered.map lineFor,
            calls := setupCalls argc argv ++ [Call.spin theNode],
            subs := [theSubscription], owned := [] })
      | SpinEnd.throws e =>
        (Outcome.uncaught e,
          { log := mw.delivered.map lineFor,
            calls := setupCalls argc argv ++ [Call.spin theNode],
            subs := [theSubscription], owned := [] }) := by
  have h0 : mw.reply (Call.init argc argv) = Reply.ok := h _ (by simp [setupCalls])
  have h1 : mw.reply (Call.makeNode "point_cloud_subscriber") = Reply.ok :=
    h _ (by simp [setupCalls])
  have h2 : mw.reply (Call.makeTransport theNode) = Reply.ok :=
    h _ (by simp [setupCalls])
  have h3 : mw.reply (Call.subscribe { node := theNode } "pct/point_cloud" 100
      FnPtr.yourCallbackHere) = Reply.ok := h _ (by simp [setupCalls])
  simp only [theNode] at h2 h3
  simp only [run, main, bind, Prog.bind, rclcpp_init, make_shared_Node,
    makePointCloudTransport, PointCloudTransport.subscribe, middlewareCall,
    rclcpp_spin, rclcpp_shutdown, pure, Prog.pure, World.initial, h0, h1, h2, h3]
  have hfold : ∀ w : World, w.subs = [theSubscription] →
      List.foldl (fun acc msg => deliver { name := "point_cloud_subscriber" } msg acc)
        w mw.delivered = { w with log := w.log ++ mw.delivered.map lineFor } :=
    foldl_deliver_theSubscription mw.delivered
  rw [hfold _ rfl]
  cases mw.spinEnd <;> rfl

/-- The run of `main` when the set-up call number `k` is the first to throw. -/
theorem run_of_setup_failure (mw : Middleware) (argc : Int)
    (argv : List String) (k : Nat) (c : Call) (e : Exn)
    (hk : (setupCalls argc argv)[k]? = some c)
    (hbefore : ∀ c2 ∈ (setupCalls argc argv).take k, mw.reply c2 = Reply.ok)
    (hfail : mw.reply c = Reply.throws e) :
    run mw argc argv =
      (Outcome.uncaught e,
        { log := [], calls := (setupCalls argc argv).take (k + 1), subs := [],
          owned := [] }) := by
  have hlt : k < 4 := by
    by_contra hge
    have : (setupCalls argc argv).length ≤ k := by simp [setupCalls]; omega
    rw [List.getElem?_eq_none this] at hk
    exact absurd hk (by simp)
  simp only [setupCalls, theNode] at hk hbefore ⊢
  interval_cases k
  · simp only [List.getElem?_cons_zero, Option.some.injEq] at hk
    subst hk
    simp [run, main, bind, Prog.bind, rclcpp_init, middlewareCall,
      World.initial, hfail]
  · simp only [List.getElem?_cons_succ, List.getElem?_cons_zero,
      Option.some.injEq] at hk
    subst hk
    have h0 := hbefore (Call.init argc argv) (by simp)
    simp [run, main, bind, Prog.bind, rclcpp_init, make_shared_Node,
      middlewareCall, World.initial, hfail, h0]
  · simp only [List.getElem?_cons_succ, List.getElem?_cons_zero,
      Option.some.injEq] at hk
    subst hk
    have h0 := hbefore (Call.init argc argv) (by simp)
    have h1 := hbefore (Call.makeNode "point_cloud_subscriber") (by simp)
    simp [run, main, bind, Prog.bind, rclcpp_init, make_shared_Node,
      makePointCloudTransport, middlewareCall, World.initial, hfail, h0, h1,
      pure, Prog.pure]
  · simp only [List.getElem?_cons_succ, List.getElem?_cons_zero,
      Option.some.injEq] at hk
    subst hk
    have h0 := hbefore (Call.init argc argv) (by simp)
    have h1 := hbefore (Call.makeNode "point_cloud_subscriber") (by simp)
    have h2 := hbefore (Call.makeTransport { name := "point_cloud_subscriber" })
      (by simp)
    simp [run, main, bind, Prog.bind, rclcpp_init, make_shared_Node,
      makePointCloudTransport, PointCloudTransport.subscribe, middlewareCall,
      World.initial, hfail, h0, h1, h2, pure, Prog.pure]

/-- Every run either gets through the set-up, or stops at the first set-up
call that throws. -/
theorem run_classify (mw : Middleware) (argc : Int) (argv : List String) :
    mw.SetupOk argc argv ∨
    ∃ (k : Nat) (c : Call) (e : Exn), k < 4 ∧
      (setupCalls argc argv)[k]? = some c ∧
      (∀ c2 ∈ (setupCalls argc argv).take k, mw.reply c2 = Reply.ok) ∧
      mw.reply c = Reply.throws e := by
  cases h0 : mw.reply (Call.init argc argv) with
  | throws e =>
    exact Or.inr ⟨0, _, e, by norm_num, by simp [setupCalls], by simp, h0⟩
  | ok =>
    cases h1 : mw.reply (Call.makeNode "point_cloud_subscriber") with
    | throws e =>
      exact Or.inr ⟨1, _, e, by norm_num, by simp [setupCalls],
        by simp [setupCalls, h0], h1⟩
    | ok =>
      cases h2 : mw.reply (Call.makeTransport theNode) with
      | throws e =>
        exact Or.inr ⟨2, _, e, by norm_num, by simp [setupCalls],
          by simp [setupCalls, h0, h1], h2⟩
      | ok =>
        cases h3 : mw.reply (Call.subscribe { node := theNode }
            "pct/point_cloud" 100 FnPtr.yourCallbackHere) with
        | throws e =>
          exact Or.inr ⟨3, _, e, by norm_num, by simp [setupCalls],
            by simp [setupCalls, h0, h1, h2], h3⟩
        | ok =>
          left
          intro c hc
          simp only [setupCalls, List.mem_cons, List.mem_singleton,
            List.mem_nil_iff, or_false] at hc
          rcases hc with rfl | rfl | rfl | rfl <;> assumption

/-! ## Claims about `main` -/

/-- Claim C4: on every run in which no call fails, `main` makes the middleware
calls in the order runtime init, node construction, transport construction,
subscribe, spin, shutdown.  When the run loop returns, the calls are exactly
these six, each once, and the state machine of the specification accepts them
and enters Initialized, Subscribed, Spinning and Shutdown in this order, no
state twice; as long as the run loop has not returned, the calls are the first
five of the same order and the machine rests in Spinning.  In both cases
runtime init is the first call and occurs once. -/
theorem C4_lifecycle_is_linear (mw : Middleware) (argc : Int)
    (argv : List String) (h : mw.NoFailure argc argv) :
    (mw.spinEnd = SpinEnd.returns →
      (run mw argc argv).2.calls =
        [Call.init argc argv, Call.makeNode "point_cloud_subscriber",
         Call.makeTransport { name := "point_cloud_subscriber" },
         Call.subscribe { node := { name := "point_cloud_subscriber" } }
           "pct/point_cloud" 100 FnPtr.yourCallbackHere,
         Call.spin { name := "point_cloud_subscriber" }, Call.shutdown] ∧
      Phase.entered Phase.Uninitialized (run mw argc argv).2.calls =
        some [Phase.Initialized, Phase.Subscribed, Phase.Spinning,
              Phase.Shutdown]) ∧
    (mw.spinEnd = SpinEnd.blocks →
      (run mw argc argv).2.calls = (lifecycleCalls argc argv).take 5 ∧
      Phase.entered Phase.Uninitialized (run mw argc argv).2.calls =
        some [Phase.Initialized, Phase.Subscribed, Phase.Spinning]) ∧
    (run mw argc argv).2.calls.head? = some (Call.init argc argv) ∧
    (run mw argc argv).2.calls.Nodup ∧
    [Phase.Uninitialized, Phase.Initialized, Phase.Subscribed, Phase.Spinning,
      Phase.Shutdown].Nodup := by
  obtain ⟨hsetup, hspin⟩ := h
  have hrun := run_of_setupOk mw argc argv hsetup
  cases hs : mw.spinEnd with
  | throws e => exact absurd hs (hspin e)
  | returns =>
    rw [hs] at hrun
    rw [hrun]
    refine ⟨fun _ => ⟨rfl, ?_⟩, fun h => ?_, rfl, ?_, by decide⟩
    · simp [lifecycleCalls, setupCalls, Phase.entered, Phase.step]
    · cases h
    · simp [lifecycleCalls, setupCalls, theNode]
  | blocks =>
    rw [hs] at hrun
    rw [hrun]
    refine ⟨fun h => ?_, fun _ => ⟨rfl, ?_⟩, rfl, ?_, by decide⟩
    · cases h
    · simp [setupCalls, Phase.entered, Phase.step]
    · simp [setupCalls, theNode]

/-- An instance: every call returns and one message is delivered. -/
theorem C4_lifecycle_is_linear_witness :
    (Middleware.nominal [PointCloud2.ofSize 640 480] SpinEnd.returns).NoFailure
      1 ["my_subscriber"] ∧
    (run (Middleware.nominal [PointCloud2.ofSize 640 480] SpinEnd.returns)
        1 ["my_subscriber"]).2.calls =
      [Call.init 1 ["my_subscriber"], Call.makeNode "point_cloud_subscriber",
       Call.makeTransport { name := "point_cloud_subscriber" },
       Call.subscribe { node := { name := "point_cloud_subscriber" } }
         "pct/point_cloud" 100 FnPtr.yourCallbackHere,
       Call.spin { name := "point_cloud_subscriber" }, Call.shutdown] ∧
    Phase.entered Phase.Uninitialized
        (run (Middleware.nominal [PointCloud2.ofSize 640 480] SpinEnd.returns)
          1 ["my_subscriber"]).2.calls =
      some [Phase.Initialized, Phase.Subscribed, Phase.Spinning,
            Phase.Shutdown] :=
  have hno : (Middleware.nominal [PointCloud2.ofSize 640 480]
      SpinEnd.returns).NoFailure 1 ["my_subscriber"] :=
    ⟨fun _ _ => rfl, fun e h => by cases h⟩
  ⟨hno, (C4_lifecycle_is_linear _ 1 ["my_subscriber"] hno).1 rfl⟩

/-- Claim C5: whatever `argc` and `argv` are, every subscribe call `main`
issues is the call with topic "pct/point_cloud", queue depth 100 and callback
`yourCallbackHere` on the transport of the node; `main` never issues more than
one; and it issues exactly this one whenever runtime init, node construction
and transport construction have returned. -/
theorem C5_single_fixed_subscribe (mw : Middleware) (argc : Int)
    (argv : List String) :
    (∀ c ∈ (run mw argc argv).2.calls, c.isSubscribe = true →
      c = Call.subscribe { node := { name := "point_cloud_subscriber" } }
            "pct/point_cloud" 100 FnPtr.yourCallbackHere) ∧
    ((run mw argc argv).2.calls.filter Call.isSubscribe).length ≤ 1 ∧
    (mw.reply (Call.init argc argv) = Reply.ok →
      mw.reply (Call.makeNode "point_cloud_subscriber") = Reply.ok →
      mw.reply (Call.makeTransport { name := "point_cloud_subscriber" }) =
        Reply.ok →
      (run mw argc argv).2.calls.filter Call.isSubscribe =
        [Call.subscribe { node := { name := "point_cloud_subscriber" } }
           "pct/point_cloud" 100 FnPtr.yourCallbackHere]) := by
  rcases run_classify mw argc argv with hok | ⟨k, c, e, hk, hget, hbefore, hfail⟩
  · have hrun := run_of_setupOk mw argc argv hok
    cases hs : mw.spinEnd <;> rw [hs] at hrun <;> simp only [hrun] <;>
      simp [lifecycleCalls, setupCalls, theNode, Call.isSubscribe]
  · have hrun := run_of_setup_failure mw argc argv k c e hget hbefore hfail
    simp only [hrun]
    simp only [setupCalls, theNode] at hget hbefore ⊢
    interval_cases k
    · simp only [List.getElem?_cons_zero, Option.some.injEq] at hget
      subst hget
      simp [Call.isSubscribe, hfail]
    · simp only [List.getElem?_cons_succ, List.getElem?_cons_zero,
        Option.some.injEq] at hget
      subst hget
      simp [Call.isSubscribe, hfail]
    · simp only [List.getElem?_cons_succ, List.getElem?_cons_zero,
        Option.some.injEq] at hget
      subst hget
      simp [Call.isSubscribe, hfail]
    · simp [Call.isSubscribe]

/-- An instance: three command-line arguments and a run loop that stays
blocked. -/
theorem C5_single_fixed_subscribe_witness :
    (run (Middleware.nominal [] SpinEnd.blocks) 3
        ["my_subscriber", "--ros-args", "-r"]).2.calls.filter Call.isSubscribe =
      [Call.subscribe { node := { name := "point_cloud_subscriber" } }
         "pct/point_cloud" 100 FnPtr.yourCallbackHere] :=
  (C5_single_fixed_subscribe (Middleware.nominal [] SpinEnd.blocks) 3
    ["my_subscriber", "--ros-args", "-r"]).2.2 rfl rfl rfl

/-- Claim C6: when the set-up has succeeded and the run loop delivers the
messages `m_1, ..., m_n`, each handed once to `yourCallbackHere`, the log holds
exactly `n` records and the `i`-th record is the one the callback writes for
`m_i`; this holds whether the run loop then returns, stays blocked or throws,
and with no message delivered the log is empty. -/
theorem C6_one_line_per_message (mw : Middleware) (argc : Int)
    (argv : List String) (h : mw.SetupOk argc argv) :
    (run mw argc argv).2.log = mw.delivered.map lineFor ∧
    (run mw argc argv).2.log.length = mw.delivered.length ∧
    (∀ i : Nat, (run mw argc argv).2.log[i]? =
      (mw.delivered[i]?).map
        (fun m => { logger := "point_cloud_subscriber",
                    severity := Severity.info,
                    text := "Message received, number of points is: " ++
                      streamUnsigned (mulU32 m.width m.height) })) ∧
    (∀ (m : PointCloud2) (w : World),
      (yourCallbackHere m w).log = w.log ++ [lineFor m]) ∧
    (mw.delivered = [] → (run mw argc argv).2.log = []) := by
  have hrun := run_of_setupOk mw argc argv h
  have hlog : (run mw argc argv).2.log = mw.delivered.map lineFor := by
    rw [hrun]; cases mw.spinEnd <;> rfl
  refine ⟨hlog, by simp [hlog], ?_, fun _ _ => rfl, ?_⟩
  · intro i
    rw [hlog, List.getElem?_map]
    rfl
  · intro hnil
    rw [hlog, hnil]
    rfl

/-- An instance: two messages are delivered and the run loop stays blocked. -/
theorem C6_one_line_per_message_witness :
    (Middleware.nominal [PointCloud2.ofSize 640 480, PointCloud2.ofSize 2 3]
      SpinEnd.blocks).SetupOk 1 ["my_subscriber"] ∧
    (run (Middleware.nominal [PointCloud2.ofSize 640 480, PointCloud2.ofSize 2 3]
      SpinEnd.blocks) 1 ["my_subscriber"]).2.log =
      [lineFor (PointCloud2.ofSize 640 480), lineFor (PointCloud2.ofSize 2 3)] :=
  ⟨fun _ _ => rfl,
   (C6_one_line_per_message
     (Middleware.nominal [PointCloud2.ofSize 640 480, PointCloud2.ofSize 2 3]
       SpinEnd.blocks) 1 ["my_subscriber"] (fun _ _ => rfl)).1⟩

/-- Claim C7: when the set-up calls have returned and the run loop returns,
`main` calls shutdown (it is the last call and occurs once) and returns exit
code 0, for every argument vector and every sequence of delivered messages;
and no run of `main` returns any exit code other than 0. -/
theorem C7_exit_code_zero (mw : Middleware) (argc : Int) (argv : List String)
    (hsetup : mw.SetupOk argc argv) (hspin : mw.spinEnd = SpinEnd.returns) :
    (run mw argc argv).1 = Outcome.returned 0 ∧
    (run mw argc argv).2.calls.getLast? = some Call.shutdown ∧
    (run mw argc argv).2.calls.count Call.shutdown = 1 ∧
    (∀ (mw2 : Middleware) (argc2 : Int) (argv2 : List String) (code : Int),
      (run mw2 argc2 argv2).1 = Outcome.returned code → code = 0) := by
  have hrun := run_of_setupOk mw argc argv hsetup
  rw [hspin] at hrun
  rw [hrun]
  refine ⟨rfl, by simp [lifecycleCalls], ?_, ?_⟩
  · simp [lifecycleCalls, setupCalls, List.count_cons]
  · intro mw2 argc2 argv2 code hcode
    rcases run_classify mw2 argc2 argv2 with hok | ⟨k, c, e, _, hget, hb, hf⟩
    · have hrun2 := run_of_setupOk mw2 argc2 argv2 hok
      rw [hrun2] at hcode
      cases hs : mw2.spinEnd <;> rw [hs] at hcode <;> simp at hcode
      exact hcode.symm
    · rw [run_of_setup_failure mw2 argc2 argv2 k c e hget hb hf] at hcode
      simp at hcode

/-- An instance: two command-line arguments, one message, then the run loop
returns. -/
theorem C7_exit_code_zero_witness :
    (Middleware.nominal [PointCloud2.ofSize 640 480] SpinEnd.returns).SetupOk
      2 ["my_subscriber", "x"] ∧
    (run (Middleware.nominal [PointCloud2.ofSize 640 480] SpinEnd.returns)
      2 ["my_subscriber", "x"]).1 = Outcome.returned 0 :=
  ⟨fun _ _ => rfl,
   (C7_exit_code_zero
     (Middleware.nominal [PointCloud2.ofSize 640 480] SpinEnd.returns)
     2 ["my_subscriber", "x"] (fun _ _ => rfl) rfl).1⟩

/-- Claim C8: when one of the set-up calls (runtime init, node construction,
transport construction, subscribe) throws and those before it have returned,
`main` catches nothing: the exception thrown is the outcome of `main`,
unchanged; the calls made are those up to and including the throwing one, so
neither spin nor shutdown nor any other later call is made; nothing is logged;
and `main` returns no exit code, in particular not 0. -/
theorem C8_setup_failure_propagates (mw : Middleware) (argc : Int)
    (argv : List String) (k : Nat) (c : Call) (e : Exn)
    (hk : (setupCalls argc argv)[k]? = some c)
    (hbefore : ∀ c2 ∈ (setupCalls argc argv).take k, mw.reply c2 = Reply.ok)
    (hfail : mw.reply c = Reply.throws e) :
    (run mw argc argv).1 = Outcome.uncaught e ∧
    (run mw argc argv).2.calls = (lifecycleCalls argc argv).take (k + 1) ∧
    (run mw argc argv).2.calls.getLast? = some c ∧
    (∀ c2 ∈ (lifecycleCalls argc argv).drop (k + 1),
      c2 ∉ (run mw argc argv).2.calls) ∧
    Call.spin { name := "point_cloud_subscriber" } ∉ (run mw argc argv).2.calls ∧
    Call.shutdown ∉ (run mw argc argv).2.calls ∧
    (run mw argc argv).2.log = [] ∧
    (∀ code : Int, (run mw argc argv).1 ≠ Outcome.returned code) := by
  have hrun := run_of_setup_failure mw argc argv k c e hk hbefore hfail
  have hlt : k < 4 := by
    by_contra hge
    have : (setupCalls argc argv).length ≤ k := by simp [setupCalls]; omega
    rw [List.getElem?_eq_none this] at hk
    exact absurd hk (by simp)
  simp only [hrun]
  simp only [lifecycleCalls, setupCalls, theNode] at hk ⊢
  interval_cases k <;>
    simp only [List.getElem?_cons_succ, List.getElem?_cons_zero,
      Option.some.injEq] at hk <;>
    subst hk <;> simp

/-- An instance: node construction throws. -/
theorem C8_setup_failure_propagates_witness :
    (setupCalls 1 ["my_subscriber"])[1]? =
      some (Call.makeNode "point_cloud_subscriber") ∧
    (run (Middleware.failingAt (Call.makeNode "point_cloud_subscriber")
        { what := "failed to initialize rcl node" } [PointCloud2.ofSize 640 480])
      1 ["my_subscriber"]).1 =
      Outcome.uncaught { what := "failed to initialize rcl node" } ∧
    (run (Middleware.failingAt (Call.makeNode "point_cloud_subscriber")
        { what := "failed to initialize rcl node" } [PointCloud2.ofSize 640 480])
      1 ["my_subscriber"]).2.calls =
      (lifecycleCalls 1 ["my_subscriber"]).take 2 :=
  have h := C8_setup_failure_propagates
    (Middleware.failingAt (Call.makeNode "point_cloud_subscriber")
      { what := "failed to initialize rcl node" } [PointCloud2.ofSize 640 480])
    1 ["my_subscriber"] 1 (Call.makeNode "point_cloud_subscriber")
    { what := "failed to initialize rcl node" } rfl (by decide) (by decide)
  ⟨rfl, h.1, h.2.1⟩

/-- An instance: two messages of width 640 and height 480 that differ in
their data. -/
theorem C9_callback_frame_witness :
    ({ PointCloud2.ofSize 640 480 with data := [1, 2, 3] } : PointCloud2).width =
      (PointCloud2.ofSize 640 480).width ∧
    yourCallbackHere { PointCloud2.ofSize 640 480 with data := [1, 2, 3] }
        World.initial =
      yourCallbackHere (PointCloud2.ofSize 640 480) World.initial :=
  ⟨rfl,
   (C9_callback_frame (PointCloud2.ofSize 640 480)
     { PointCloud2.ofSize 640 480 with data := [1, 2, 3] } World.initial
     rfl rfl).2.2.2.2.2.2⟩

end PointCloudSubscriber
